import Mathlib

/-!
Shallow embedding of `cardpy` (src/cardpy/main.py) in Lean 4, together with
theorems settling the specification claims about it.

Modelling conventions.
  - Python's `Rank`, `Suit` and `Color` enums become Lean inductives; each
    enum member's `.value` / `.name` strings are separate functions.
  - A Python `Card` object's mutable fields `_rank`, `_suit`, `_color` and
    `_face_up` become a Lean structure.  The `_deck` / `_hand` back references
    are informational only (no claim depends on them) and are not modelled.
  - A Deck's / Hand's `cards` list becomes `List Card` with Python indexing:
    index 0 is the bottom, the highest index is the top (`list.pop` removes
    the last element).
  - Methods that can raise become functions returning
    `Except PyErr α × List Card`: the first component is the returned value or
    the raised Python exception, the second the contents of the container
    after the call (Python exceptions propagate, leaving whatever state the
    object was in).  The spec's error names map onto the Python exception
    types actually raised: InsufficientCards / EmptyContainer /
    InvalidArgument / InvalidValue → `ValueError`, InvalidType /
    InvalidFormat → `TypeError`, Immutable and a missing attribute →
    `AttributeError`.
  - For claims about object identity and aliasing (deep copies, flipping one
    copy of a card), a heap model is used: the heap is a `List Card` indexed
    by object id, and a container holds a list of ids.
-/

set_option maxHeartbeats 4000000
set_option maxRecDepth 100000

deriving instance DecidableEq for Except

namespace Cardpy

/-- Ranks of playing cards, in the declaration order of the Python `Rank`
enum (TWO .. ACE), which is also the order `for rank in Rank` iterates in. -/
inductive Rank where
  | TWO | THREE | FOUR | FIVE | SIX | SEVEN | EIGHT | NINE | TEN
  | JACK | QUEEN | KING | ACE
  deriving DecidableEq, Repr, Fintype

/-- Suits of playing cards, in the declaration order of the Python `Suit`
enum (HEARTS, DIAMONDS, CLUBS, SPADES), which is also the order
`for suit in Suit` iterates in. -/
inductive Suit where
  | HEARTS | DIAMONDS | CLUBS | SPADES
  deriving DecidableEq, Repr, Fintype

/-- Colors of playing cards (`Color` enum). -/
inductive Color where
  | RED | BLACK
  deriving DecidableEq, Repr

/-- The `.value` string of each `Rank` member. -/
def Rank.value : Rank → String
  | .TWO => "2" | .THREE => "3" | .FOUR => "4" | .FIVE => "5" | .SIX => "6"
  | .SEVEN => "7" | .EIGHT => "8" | .NINE => "9" | .TEN => "10"
  | .JACK => "J" | .QUEEN => "Q" | .KING => "K" | .ACE => "A"

/-- The `.value` string (unicode symbol) of each `Suit` member. -/
def Suit.value : Suit → String
  | .HEARTS => "♥" | .DIAMONDS => "♦" | .CLUBS => "♣" | .SPADES => "♠"

/-- The `.name` string of each `Suit` member. -/
def Suit.pyName : Suit → String
  | .HEARTS => "HEARTS" | .DIAMONDS => "DIAMONDS"
  | .CLUBS => "CLUBS" | .SPADES => "SPADES"

/-- The `.value` string of each `Color` member. -/
def Color.value : Color → String
  | .RED => "red" | .BLACK => "black"

/-- Python exception types raised by the code in main.py. -/
inductive PyErr where
  | valueError | typeError | attributeError
  deriving DecidableEq, Repr

/-- Iteration order of `for rank in Rank` (enum declaration order). -/
def rankEnumOrder : List Rank :=
  [.TWO, .THREE, .FOUR, .FIVE, .SIX, .SEVEN, .EIGHT, .NINE, .TEN,
   .JACK, .QUEEN, .KING, .ACE]

/-- Iteration order of `for suit in Suit` (enum declaration order). -/
def suitEnumOrder : List Suit :=
  [.HEARTS, .DIAMONDS, .CLUBS, .SPADES]

/-- Class attribute `Card.SUITS` of main.py. -/
def Card.SUITS : List Suit := [.SPADES, .HEARTS, .DIAMONDS, .CLUBS]

/-- Class attribute `Card.SUITS_RED` of main.py. -/
def Card.SUITS_RED : List Suit := [.HEARTS, .DIAMONDS]

/-- Class attribute `Card.SUITS_BLACK` of main.py. -/
def Card.SUITS_BLACK : List Suit := [.SPADES, .CLUBS]

/-- Class attribute `Card.RANKS` of main.py (note: there is no lowercase
`Card.ranks` attribute in main.py; `Deck.sort`'s key function nevertheless
refers to `Card.ranks`). -/
def Card.RANKS : List Rank := rankEnumOrder

/-- A Python `Card` object's data fields: `_rank`, `_suit`, the stored
derived `_color` (an `Option` because the Python expression computing it
falls back to `None` when the suit is in neither suit list), and
`_face_up`. -/
structure Card where
  rank : Rank
  suit : Suit
  color : Option Color
  faceUp : Bool
  deriving DecidableEq, Repr

/-- The color computation in `Card.__init__` and the `suit` setter:
`Color.RED if suit in Card.SUITS_RED else Color.BLACK if suit in
Card.SUITS_BLACK else None`. -/
def computeColor (s : Suit) : Option Color :=
  if Card.SUITS_RED.contains s then some Color.RED
  else if Card.SUITS_BLACK.contains s then some Color.BLACK
  else none

/-- Construction of a card (`Card.__init__`) from enum-typed rank and suit
(the string-shorthand branches resolve the string to the same enum member
and then store exactly the same fields). -/
def cardNew (r : Rank) (s : Suit) (f : Bool := false) : Card :=
  { rank := r, suit := s, color := computeColor s, faceUp := f }

/-- The `rank` property setter (enum-typed branch): stores the rank, does
not touch `_color`. -/
def Card.setRank (c : Card) (v : Rank) : Card :=
  { c with rank := v }

/-- The `suit` property setter (enum-typed branch): stores the suit and
recomputes `_color`. -/
def Card.setSuit (c : Card) (v : Suit) : Card :=
  { c with suit := v, color := computeColor v }

/-- Lookup used by the `suit` setter's string branch:
`next((s for s in Suit if s.value == value or s.name[0] == value), None)`. -/
def suitFromStr (v : String) : Option Suit :=
  suitEnumOrder.find? (fun s => v == s.value || v == (s.pyName.take 1))

/-- The `suit` property setter, string branch: resolves the string, raises
`ValueError` on failure (card unchanged), otherwise stores the suit and
recomputes `_color`. -/
def Card.setSuitStr (c : Card) (v : String) : Except PyErr Unit × Card :=
  match suitFromStr v with
  | none => (.error .valueError, c)
  | some s => (.ok (), { c with suit := s, color := computeColor s })

/-- The `face_up` property setter. -/
def Card.setFaceUp (c : Card) (v : Bool) : Card :=
  { c with faceUp := v }

/-- The `color` property setter: unconditionally raises `AttributeError`
("Color cannot be modified - it is determined by suit"); the card is left
unchanged. -/
def Card.setColor (c : Card) (_v : Color) : Except PyErr Unit × Card :=
  (.error .attributeError, c)

/-- `Card.flip`: toggles the card face up or down via the `face_up`
setter. -/
def Card.flip (c : Card) : Card :=
  c.setFaceUp (!c.faceUp)

/-- Result of a Python `==` between a `Card` and something: either an actual
`bool`, or — as `Card.__eq__` does for non-Card operands — a `TypeError`
exception *object* that is returned (not raised). -/
inductive EqResult where
  | bool (b : Bool)
  | typeErrorObj
  deriving DecidableEq, Repr

/-- Python truthiness of an `EqResult`: booleans are themselves; any
exception instance is truthy. -/
def EqResult.truthy : EqResult → Bool
  | .bool b => b
  | .typeErrorObj => true

/-- A dynamically typed value handed to `Card.__eq__` or to a container
method: either a `Card` or some non-Card object. -/
inductive PyVal where
  | card (c : Card)
  | other (s : String)
  deriving DecidableEq, Repr

/-- Card.__eq__ of main.py: returns (does not raise) a `TypeError` object
for a non-Card operand; for Cards compares rank and suit only. -/
def Card.eqPy (c : Card) (v : PyVal) : EqResult :=
  match v with
  | .other _ => .typeErrorObj
  | .card o => .bool (c.rank == o.rank && c.suit == o.suit)

/-- The boolean card equality used between two Cards (rank and suit,
ignoring face-up state), as in `Card.__eq__`'s Card branch; this is what
`list.count` / `in` / `remove` compare by. -/
def cardEq (a b : Card) : Bool :=
  a.rank == b.rank && a.suit == b.suit

/-- The cards built by `Deck.__init__` when `init=True`:
`[Card(rank, suit, _deck=self) for rank in Rank for suit in Suit]` —
rank is the outer loop, suit the inner loop, both in enum declaration
order; every card starts face down. -/
def standardCards : List Card :=
  rankEnumOrder.flatMap (fun r => suitEnumOrder.map (fun s => cardNew r s false))

/-- Deck.count / Hand.count on a Card argument: `self.cards.count(card)`,
which compares with `Card.__eq__` (rank and suit only). -/
def Deck.count (d : List Card) (c : Card) : Nat :=
  (d.filter (fun x => cardEq x c)).length

/-- Deck.draw of main.py: raises `ValueError` ("Cannot draw from empty
deck") if the deck is empty, else pops and returns the top (last) card. -/
def Deck.draw (d : List Card) : Except PyErr Card × List Card :=
  match d.getLast? with
  | none => (.error .valueError, d)
  | some c => (.ok c, d.dropLast)

/-- The list comprehension `[self.draw() for _ in range(count)]` of
`Deck.draw_multiple`, for a non-negative number of iterations: each
iteration pops the top card; an exception from `draw` propagates, leaving
the deck in its current state. -/
def Deck.drawN (d : List Card) : Nat → Except PyErr (List Card) × List Card
  | 0 => (.ok [], d)
  | n + 1 =>
    match Deck.draw d with
    | (.error e, d1) => (.error e, d1)
    | (.ok c, d1) =>
      match Deck.drawN d1 n with
      | (.error e, d2) => (.error e, d2)
      | (.ok cs, d2) => (.ok (c :: cs), d2)

/-- Deck.draw_multiple of main.py: raises `ValueError` (the spec's
`InsufficientCards`) if `count > len(self)` before removing anything, else
draws `count` cards top-down (`range(count)` is empty for negative
counts). -/
def Deck.drawMultiple (d : List Card) (count : Int) : Except PyErr (List Card) × List Card :=
  if (d.length : Int) < count then (.error .valueError, d)
  else Deck.drawN d count.toNat

/-- Deck.extend of main.py on a list of dynamically typed values: checks
`all(isinstance(card, Card) for card in cards)` first and raises
`TypeError` (the spec's `InvalidType`) without mutating, else appends all
the cards on top. -/
def Deck.extend (d : List Card) (cards : List PyVal) : Except PyErr Unit × List Card :=
  if cards.all (fun v => match v with | .card _ => true | .other _ => false) then
    (.ok (), d ++ cards.filterMap (fun v => match v with | .card c => some c | .other _ => none))
  else
    (.error .typeError, d)

/-- One pass of `for hand in hands: hand.append(self.draw())` in
`Deck.deal`: each hand in order receives the current top card; a failing
`draw` propagates its exception, keeping the cards drawn so far in the
hands already served. -/
def Deck.dealRound (d : List Card) :
    List (List Card) → Except PyErr (List (List Card)) × List Card
  | [] => (.ok [], d)
  | h :: rest =>
    match Deck.draw d with
    | (.error e, d1) => (.error e, d1)
    | (.ok c, d1) =>
      match Deck.dealRound d1 rest with
      | (.error e, d2) => (.error e, d2)
      | (.ok rest2, d2) => (.ok ((h ++ [c]) :: rest2), d2)

/-- The outer loop `for _ in range(cards_per_player)` of `Deck.deal`. -/
def Deck.dealRounds (d : List Card) (hands : List (List Card)) :
    Nat → Except PyErr (List (List Card)) × List Card
  | 0 => (.ok hands, d)
  | r + 1 =>
    match Deck.dealRound d hands with
    | (.error e, d1) => (.error e, d1)
    | (.ok hands1, d1) => Deck.dealRounds d1 hands1 r

/-- Deck.deal of main.py: raises `ValueError` (the spec's
`InsufficientCards`) up front if `num_players * cards_per_player >
len(self)`, else deals one card to each player per round, for
`cards_per_player` rounds, drawing from the top each time. -/
def Deck.deal (d : List Card) (numPlayers cardsPerPlayer : Nat) :
    Except PyErr (List (List Card)) × List Card :=
  if d.length < numPlayers * cardsPerPlayer then (.error .valueError, d)
  else Deck.dealRounds d (List.replicate numPlayers []) cardsPerPlayer

/-- Python slice index clamping: the start index `i` of `l[i:]` (or stop
index of `l[:i]`) as an effective non-negative position into a list of
length `len`. -/
def pyClamp (len : Nat) (i : Int) : Nat :=
  if 0 ≤ i then min i.toNat len else len - (-i).toNat

/-- Python slice `l[i:]`. -/
def pySliceFrom (l : List α) (i : Int) : List α :=
  l.drop (pyClamp l.length i)

/-- Python slice `l[:i]`. -/
def pySliceTo (l : List α) (i : Int) : List α :=
  l.take (pyClamp l.length i)

/-- Deck.peek_multiple of main.py: raises `ValueError` (the spec's
`InsufficientCards`) if `count > len(self)`; otherwise returns
`self.cards[-count:]` when peeking from the top and `self.cards[:count]`
when peeking from the bottom, never mutating the deck. -/
def Deck.peekMultiple (d : List Card) (count : Int := 1) (fromTop : Bool := true) :
    Except PyErr (List Card) × List Card :=
  if (d.length : Int) < count then (.error .valueError, d)
  else (.ok (if fromTop then pySliceFrom d (-count) else pySliceTo d count), d)

/-- The `list.index` method: position of the first element equal to `x`,
`ValueError` if absent. -/
def pyListIndex [BEq α] (l : List α) (x : α) : Except PyErr Nat :=
  match l.findIdx? (fun y => y == x) with
  | some i => .ok i
  | none => .error .valueError

/-- The `sort_key` closure of `Deck.sort` / `Hand.sort` in main.py:
`rank_list = ranks if ranks is not None else Card.ranks` — but main.py's
`Card` defines only the uppercase `Card.RANKS` / `Card.SUITS` attributes,
so when no custom ordering is supplied the attribute lookup `Card.ranks`
(resp. `Card.suits`) raises `AttributeError`. -/
def sortKey (ranksOpt : Option (List Rank)) (suitsOpt : Option (List Suit))
    (c : Card) : Except PyErr (Nat × Nat) := do
  let rankList ← match ranksOpt with
    | some rl => pure rl
    | none => (.error .attributeError : Except PyErr (List Rank))
  let suitList ← match suitsOpt with
    | some sl => pure sl
    | none => (.error .attributeError : Except PyErr (List Suit))
  let ri ← pyListIndex rankList c.rank
  let si ← pyListIndex suitList c.suit
  pure (ri, si)

/-- Strict lexicographic order on sort keys. -/
def keyLt (a b : Nat × Nat) : Bool :=
  a.1 < b.1 || (a.1 == b.1 && a.2 < b.2)

/-- Insertion of a keyed element into an already sorted keyed list, placing
it after all elements whose key is not greater (so that inserting
left-to-right is stable, as CPython's sort is). -/
def insKeyed (x : (Nat × Nat) × Card) : List ((Nat × Nat) × Card) → List ((Nat × Nat) × Card)
  | [] => [x]
  | y :: ys => if keyLt x.1 y.1 then x :: y :: ys else y :: insKeyed x ys

/-- Stable sort of a keyed list by ascending key. -/
def stableSortKeyed (l : List ((Nat × Nat) × Card)) : List ((Nat × Nat) × Card) :=
  l.foldl (fun acc x => insKeyed x acc) []

/-- Deck.sort / Hand.sort of main.py: `self.cards.sort(key=sort_key,
reverse=reverse)`.  CPython first applies the key function to every element
(left to right); if that raises, the list is left unchanged and the
exception propagates.  Otherwise the list is stably sorted by ascending
key, descending if `reverse`. -/
def Deck.sortD (d : List Card) (ranksOpt : Option (List Rank) := none)
    (suitsOpt : Option (List Suit) := none) (rev : Bool := false) :
    Except PyErr (List Card) × List Card :=
  match d.mapM (fun c => (sortKey ranksOpt suitsOpt c).map (fun k => (k, c))) with
  | .error e => (.error e, d)
  | .ok keyed =>
    let sorted :=
      if rev then ((stableSortKeyed keyed.reverse).map Prod.snd).reverse
      else (stableSortKeyed keyed).map Prod.snd
    (.ok sorted, sorted)

/-- Hand.play of main.py: raises `ValueError` if the hand is empty, else
pops and returns the top (last) card — identical to `Deck.draw`. -/
def Hand.play (h : List Card) : Except PyErr Card × List Card :=
  match h.getLast? with
  | none => (.error .valueError, h)
  | some c => (.ok c, h.dropLast)

/-- Hand.play_multiple of main.py, translated faithfully: after the
`count > len(self)` check it evaluates `[self.draw() for _ in
range(count)]` — but `Hand` defines no `draw` method (its pop method is
named `play`), so the attribute lookup `self.draw` raises
`AttributeError` on the first iteration, before any card is removed.
`range(count)` is empty for `count ≤ 0`, in which case no lookup happens
and the empty list is returned. -/
def Hand.playMultiple (h : List Card) (count : Int) : Except PyErr (List Card) × List Card :=
  if (h.length : Int) < count then (.error .valueError, h)
  else if count ≤ 0 then (.ok [], h)
  else (.error .attributeError, h)

/-- Hand.extend of main.py — same body as `Deck.extend`. -/
def Hand.extend (h : List Card) (cards : List PyVal) : Except PyErr Unit × List Card :=
  if cards.all (fun v => match v with | .card _ => true | .other _ => false) then
    (.ok (), h ++ cards.filterMap (fun v => match v with | .card c => some c | .other _ => none))
  else
    (.error .typeError, h)

/-- Hand.peek_multiple of main.py — same body as `Deck.peekMultiple`. -/
def Hand.peekMultiple (h : List Card) (count : Int := 1) (fromTop : Bool := true) :
    Except PyErr (List Card) × List Card :=
  if (h.length : Int) < count then (.error .valueError, h)
  else (.ok (if fromTop then pySliceFrom h (-count) else pySliceTo h count), h)

/-! Heap model, for the claims about object identity and deep copies.
A `Heap` is the store of card objects, indexed by object id; a container's
`cards` list is then a list of ids.  `deepcopy` allocates a fresh id with
the same card value; a Python list copy (`Deck(self.cards)`) reuses the
same ids. -/

/-- The store of card objects, indexed by object id. -/
abbrev Heap := List Card

/-- Dereference an object id in the heap. -/
def readCard (heap : Heap) (i : Nat) : Card :=
  heap.getD i (cardNew Rank.TWO Suit.HEARTS)

/-- The card values a container holds, read through the heap. -/
def readCards (heap : Heap) (ids : List Nat) : List Card :=
  ids.map (readCard heap)

/-- Mutate one card object in place: `card.flip()` (equivalently the
`face_up` toggle) applied to the object with id `i`. -/
def flipAt (heap : Heap) (i : Nat) : Heap :=
  heap.set i (Card.flip (readCard heap i))

/-- Deck.__init__ with `init=True` and the given `deck_count` in the heap
model.  The standard comprehension creates 52 fresh objects (ids 0..51).
`deck_count=0` runs `self.clear()` — the deck drops its references.
`deck_count ≥ 2` rebinds `self.cards` to
`[deepcopy(card) for card in self.cards for _ in range(deck_count)]`:
`deck_count` fresh deep copies of each card, copies of the same card
adjacent, each copy a distinct new object. -/
def deckInitH (deckCount : Nat) : List Nat × Heap :=
  let base := standardCards
  let ids := List.range base.length
  match deckCount with
  | 0 => ([], base)
  | 1 => (ids, base)
  | _ =>
    let copies := (readCards base ids).flatMap (fun c => List.replicate deckCount c)
    ((List.range copies.length).map (· + base.length), base ++ copies)

/-- Deck.__mul__ (and Hand.__mul__, whose body is identical) in the heap
model, for an integer right operand.  `other < 0` raises `ValueError` (the
spec's `InvalidArgument`).  `result = Deck(self.cards)` builds a new deck
over a fresh list holding the *same* card objects; then `other == 0`
clears that new list, and `other > 1` rebinds it to `other` fresh deep
copies of each card.  For `other == 1` the product therefore shares its
card objects with the original. -/
def Deck.mulH (heap : Heap) (ids : List Nat) (n : Int) : Except PyErr (List Nat) × Heap :=
  if n < 0 then (.error .valueError, heap)
  else if n = 0 then (.ok [], heap)
  else if n = 1 then (.ok ids, heap)
  else
    let copies := (readCards heap ids).flatMap (fun c => List.replicate n.toNat c)
    (.ok ((List.range copies.length).map (· + heap.length)), heap ++ copies)

/-! Display -/

/-- colorama `Fore.BLACK`. -/
def foreBLACK : String := "\x1b[30m"

/-- colorama `Style.RESET_ALL`. -/
def styleRESETALL : String := "\x1b[0m"

/-- colorama `Style.DIM`. -/
def styleDIM : String := "\x1b[2m"

/-- Card.__str__ of main.py: the colorama-styled short form
`rank.value + suit.value` when the card is face up, and a dim `"Card"`
placeholder when it is face down. -/
def Card.str (c : Card) : String :=
  if c.faceUp then foreBLACK ++ c.rank.value ++ c.suit.value ++ styleRESETALL
  else styleDIM ++ "Card" ++ styleRESETALL

/-- Card.__format__ of main.py: `'rank'` → the rank's display string,
`'suit'` → the suit's symbol, `'color'` → the color's value
("red"/"black"), any other format key raises `TypeError` (the spec's
`InvalidFormat`). -/
def Card.formatPy (c : Card) (spec : String) : Except PyErr String :=
  if spec == "rank" then .ok c.rank.value
  else if spec == "suit" then .ok c.suit.value
  else if spec == "color" then
    match c.color with
    | some col => .ok col.value
    | none => .error .attributeError
  else .error .typeError

/-- The card states reachable through the public interface: construction,
the rank / suit / face_up setters and `flip`.  (The `color` setter always
raises and leaves the card unchanged, so it adds nothing.) -/
inductive Card.Reachable : Card → Prop where
  | new (r : Rank) (s : Suit) (f : Bool) : Reachable (cardNew r s f)
  | setRank (c : Card) (v : Rank) : Reachable c → Reachable (c.setRank v)
  | setSuit (c : Card) (v : Suit) : Reachable c → Reachable (c.setSuit v)
  | setSuitStr (c : Card) (v : String) : Reachable c → Reachable (c.setSuitStr v).2
  | setFaceUp (c : Card) (v : Bool) : Reachable c → Reachable (c.setFaceUp v)
  | flip (c : Card) : Reachable c → Reachable c.flip

/-! Theorems -/

/-- C10: Card.__eq__ on a non-Card operand does not raise and does not
return `False`: it returns a `TypeError` exception object, which is truthy,
so `c == x` used in a boolean context evaluates as true for every non-Card
operand. -/
theorem C10_eq_nonCard_returns_truthy_typeError (c : Card) (s : String) :
    Card.eqPy c (PyVal.other s) = EqResult.typeErrorObj ∧
    (Card.eqPy c (PyVal.other s)).truthy = true ∧
    Card.eqPy c (PyVal.other s) ≠ EqResult.bool false :=
  ⟨rfl, rfl, by simp [Card.eqPy]⟩

/-- C1: the code violates the claimed Deck/Hand multi-draw equivalence.
On a one-card hand, `Hand.play_multiple(1)` raises `AttributeError` —
`Hand` has no `draw` method (its pop method is `play`), yet
`play_multiple`'s body calls `self.draw()` — and leaves the hand intact,
whereas `Deck.draw_multiple(1)` on the same one-card contents returns the
top card and leaves the deck empty.  (For `n = 0` both return `[]`, and for
`n` exceeding the size both raise `ValueError`, shown here too.) -/
theorem C1_hand_play_multiple_attributeError :
    Hand.playMultiple [cardNew Rank.ACE Suit.SPADES] 1 =
      (Except.error PyErr.attributeError, [cardNew Rank.ACE Suit.SPADES]) ∧
    Deck.drawMultiple [cardNew Rank.ACE Suit.SPADES] 1 =
      (Except.ok [cardNew Rank.ACE Suit.SPADES], []) ∧
    (Hand.playMultiple [cardNew Rank.ACE Suit.SPADES] 0).1 = Except.ok [] ∧
    (Deck.drawMultiple [cardNew Rank.ACE Suit.SPADES] 0).1 = Except.ok [] ∧
    (Hand.playMultiple [cardNew Rank.ACE Suit.SPADES] 2).1 =
      Except.error PyErr.valueError ∧
    (Deck.drawMultiple [cardNew Rank.ACE Suit.SPADES] 2).1 =
      Except.error PyErr.valueError := by
  decide

/-- C2: the code violates the claimed default sort behaviour.  The
`sort_key` closure of `Deck.sort` reads `Card.ranks` / `Card.suits`, but
main.py's `Card` class defines only `Card.RANKS` / `Card.SUITS`, so
`sort()` with no custom orderings raises `AttributeError` on every
non-empty deck and leaves the order unchanged: TWO of SPADES is not placed
before ACE of CLUBS. -/
theorem C2_sort_default_orderings_attributeError :
    Deck.sortD [cardNew Rank.ACE Suit.CLUBS, cardNew Rank.TWO Suit.SPADES]
        none none false =
      (Except.error PyErr.attributeError,
       [cardNew Rank.ACE Suit.CLUBS, cardNew Rank.TWO Suit.SPADES]) := by
  decide

/-- C3: dealing 4 players 2 cards each from the 52-card unshuffled standard
deck proceeds top-down in round-robin order: player 0 receives exactly the
top card (ACE of SPADES, the deck's last element) and the 5th-from-top card
(KING of SPADES, index 47), each other player the cards one position below,
exactly 8 cards are consumed, and the remaining deck is the untouched
bottom 44 cards. -/
theorem C3_deal_4x2_round_robin :
    (Deck.deal standardCards 4 2).1 =
      Except.ok
        [[cardNew Rank.ACE Suit.SPADES, cardNew Rank.KING Suit.SPADES],
         [cardNew Rank.ACE Suit.CLUBS, cardNew Rank.KING Suit.CLUBS],
         [cardNew Rank.ACE Suit.DIAMONDS, cardNew Rank.KING Suit.DIAMONDS],
         [cardNew Rank.ACE Suit.HEARTS, cardNew Rank.KING Suit.HEARTS]] ∧
    (Deck.deal standardCards 4 2).2 = standardCards.take 44 ∧
    (Deck.deal standardCards 4 2).2.length = 44 ∧
    standardCards.length = 52 ∧
    standardCards.getLast? = some (cardNew Rank.ACE Suit.SPADES) ∧
    standardCards.getD 47 (cardNew Rank.TWO Suit.HEARTS) =
      cardNew Rank.KING Suit.SPADES := by
  decide

/-- Every card state reachable through the public interface stores exactly
the color derived from its suit (red for hearts and diamonds, black
otherwise). -/
theorem reachable_color {c : Card} (h : Card.Reachable c) :
    c.color =
      some (if c.suit = Suit.HEARTS ∨ c.suit = Suit.DIAMONDS
            then Color.RED else Color.BLACK) := by
  induction h with
  | new r s f => cases s <;> rfl
  | setRank c v _ ih => simpa [Card.setRank] using ih
  | setSuit c v _ _ => cases v <;> rfl
  | setSuitStr c v _ ih =>
    cases hfs : suitFromStr v with
    | none => simpa [Card.setSuitStr, hfs] using ih
    | some s => cases s <;> simp_all [Card.setSuitStr] <;> rfl
  | setFaceUp c v _ ih => simpa [Card.setFaceUp] using ih
  | flip c _ ih => simpa [Card.flip, Card.setFaceUp] using ih

/-- C8 counterexample: the full textual form of main.py is not
"<RANK NAME> of <SUIT NAME> <suit symbol>" and is not independent of the
face-up state: for ACE of SPADES it is the colorama-styled "A♠" face up and
a dim "Card" face down. -/
theorem C8_full_form_counterexample :
    Card.str (cardNew Rank.ACE Suit.SPADES true) ≠ "ACE of SPADES ♠" ∧
    Card.str (cardNew Rank.ACE Suit.SPADES false) ≠ "ACE of SPADES ♠" ∧
    Card.str (cardNew Rank.ACE Suit.SPADES true) ≠
      Card.str (cardNew Rank.ACE Suit.SPADES false) := by
  decide

/-- C8 (amended): Card.__str__ produces the colorama-styled short form
(black foreground, rank display string, suit symbol, reset) when the card
is face up and a dim "Card" placeholder when face down; the formatting keys
produce `rank` → the rank's display string, `suit` → the suit's symbol,
`color` → "red"/"black" (for every reachable card), and any other
formatting key fails with `TypeError`. -/
theorem C8_display_forms (c : Card) (spec : String) :
    (c.faceUp = true →
      Card.str c = foreBLACK ++ c.rank.value ++ c.suit.value ++ styleRESETALL) ∧
    (c.faceUp = false → Card.str c = styleDIM ++ "Card" ++ styleRESETALL) ∧
    Card.formatPy c "rank" = Except.ok c.rank.value ∧
    Card.formatPy c "suit" = Except.ok c.suit.value ∧
    (Card.Reachable c →
      Card.formatPy c "color" =
        Except.ok (if c.suit = Suit.HEARTS ∨ c.suit = Suit.DIAMONDS
                   then "red" else "black")) ∧
    (spec ≠ "rank" → spec ≠ "suit" → spec ≠ "color" →
      Card.formatPy c spec = Except.error PyErr.typeError) := by
  refine ⟨fun h => by simp [Card.str, h], fun h => by simp [Card.str, h],
    rfl, rfl, ?_, ?_⟩
  · intro hr
    have hc := reachable_color hr
    by_cases hs : c.suit = Suit.HEARTS ∨ c.suit = Suit.DIAMONDS <;>
      simp [Card.formatPy, hc, hs, Color.value]
  · intro h1 h2 h3
    simp only [Card.formatPy, beq_iff_eq, if_neg h1, if_neg h2, if_neg h3]

/-- Witness for C8 at a face-up ACE of SPADES and an unrecognized
formatting key. -/
theorem C8_display_forms_witness :
    Card.str (cardNew Rank.ACE Suit.SPADES true) =
      foreBLACK ++ (cardNew Rank.ACE Suit.SPADES true).rank.value ++
        (cardNew Rank.ACE Suit.SPADES true).suit.value ++ styleRESETALL ∧
    Card.formatPy (cardNew Rank.ACE Suit.SPADES true) "xyz" =
      Except.error PyErr.typeError :=
  ⟨(C8_display_forms (cardNew Rank.ACE Suit.SPADES true) "xyz").1 rfl,
   (C8_display_forms (cardNew Rank.ACE Suit.SPADES true) "xyz").2.2.2.2.2
     (by decide) (by decide) (by decide)⟩

/-- C9 counterexample: peeking with count = 0 from the top of a one-card
deck returns the whole list (`self.cards[-0:]` is `self.cards[0:]`), not
the empty list the claim requires. -/
theorem C9_peek_zero_counterexample :
    (Deck.peekMultiple [cardNew Rank.ACE Suit.SPADES] 0 true).1 =
      Except.ok [cardNew Rank.ACE Suit.SPADES] ∧
    (Except.ok [cardNew Rank.ACE Suit.SPADES] : Except PyErr (List Card)) ≠
      Except.ok [] := by
  decide

/-- Effective start position of the slice `l[-count:]` for count ≥ 1 within
bounds. -/
theorem pyClamp_neg {len : Nat} {count : Int} (h : 1 ≤ count) :
    pyClamp len (-count) = len - count.toNat := by
  unfold pyClamp; split <;> omega

/-- Effective stop position of the slice `l[:count]` for 0 ≤ count ≤ len. -/
theorem pyClamp_nonneg {len : Nat} {count : Int} (h0 : 0 ≤ count)
    (hle : count ≤ (len : Int)) : pyClamp len count = count.toNat := by
  unfold pyClamp; split <;> omega

/-- C9 (amended): peek is a pure observation with identical behaviour on
Deck and Hand: the contents are unchanged afterwards in every case; a count
exceeding the size fails with `ValueError` (the spec's
`InsufficientCards`); for 1 ≤ count ≤ size exactly `count` cards are
returned from the requested end; for count = 0, peeking from the bottom
returns the empty list but peeking from the top returns the entire
contents. -/
theorem C9_peek_pure_observation (d : List Card) (count : Int) (fromTop : Bool) :
    Hand.peekMultiple d count fromTop = Deck.peekMultiple d count fromTop ∧
    (Deck.peekMultiple d count fromTop).2 = d ∧
    ((d.length : Int) < count →
      (Deck.peekMultiple d count fromTop).1 = Except.error PyErr.valueError) ∧
    (1 ≤ count → count ≤ (d.length : Int) →
      (Deck.peekMultiple d count fromTop).1 =
        Except.ok (if fromTop then d.drop (d.length - count.toNat)
                   else d.take count.toNat) ∧
      (if fromTop then d.drop (d.length - count.toNat)
       else d.take count.toNat).length = count.toNat) ∧
    (count = 0 →
      (Deck.peekMultiple d count fromTop).1 =
        Except.ok (if fromTop then d else [])) := by
  refine ⟨rfl, ?_, ?_, ?_, ?_⟩
  · unfold Deck.peekMultiple; split <;> rfl
  · intro h; unfold Deck.peekMultiple; rw [if_pos h]
  · intro h1 h2
    have hnot : ¬ ((d.length : Int) < count) := not_lt.mpr h2
    constructor
    · unfold Deck.peekMultiple pySliceFrom pySliceTo
      rw [if_neg hnot, pyClamp_neg h1, pyClamp_nonneg (by omega) h2]
    · cases fromTop <;> simp [List.length_take, List.length_drop] <;> omega
  · intro h0
    subst h0
    unfold Deck.peekMultiple pySliceFrom pySliceTo
    have : pyClamp d.length (-(0 : Int)) = 0 := by unfold pyClamp; split <;> omega
    rw [if_neg (by omega)]
    cases fromTop <;> simp [this, pyClamp]

/-- Witness for C9: peeking 1 card from the top of a one-card deck returns
exactly that card. -/
theorem C9_peek_pure_observation_witness :
    (Deck.peekMultiple [cardNew Rank.ACE Suit.SPADES] 1 true).1 =
      Except.ok [cardNew Rank.ACE Suit.SPADES] := by
  have h := (C9_peek_pure_observation [cardNew Rank.ACE Suit.SPADES] 1 true).2.2.2.1
    (by decide) (by decide)
  rw [h.1]
  decide

/-- C6: for every card state reachable through construction and any
sequence of rank/suit/face-up assignments and flips, the stored color is
exactly the function of suit — RED iff the suit is HEARTS or DIAMONDS,
BLACK iff it is SPADES or CLUBS — and any direct assignment to `color`
fails with `AttributeError` (the spec's `Immutable`), leaving the card
unchanged. -/
theorem C6_color_always_derived_from_suit (c : Card) (h : Card.Reachable c) :
    (c.color = some Color.RED ↔ (c.suit = Suit.HEARTS ∨ c.suit = Suit.DIAMONDS)) ∧
    (c.color = some Color.BLACK ↔ (c.suit = Suit.SPADES ∨ c.suit = Suit.CLUBS)) ∧
    (∀ v : Color, Card.setColor c v = (Except.error PyErr.attributeError, c)) := by
  have hc := reachable_color h
  refine ⟨?_, ?_, fun v => rfl⟩ <;>
    (rw [hc]; cases hs : c.suit <;> simp)

/-- Witness for C6 at a freshly constructed ACE of SPADES. -/
theorem C6_color_always_derived_from_suit_witness :
    (cardNew Rank.ACE Suit.SPADES false).color = some Color.BLACK :=
  (C6_color_always_derived_from_suit (cardNew Rank.ACE Suit.SPADES false)
    (Card.Reachable.new Rank.ACE Suit.SPADES false)).2.1.mpr (Or.inl rfl)

/-- Drawing from a deck holding at least `n` cards never raises. -/
theorem drawN_ok : ∀ (n : Nat) (d : List Card), n ≤ d.length →
    ∃ cs d', Deck.drawN d n = (Except.ok cs, d') := by
  intro n
  induction n with
  | zero => exact fun d _ => ⟨[], d, rfl⟩
  | succ n ih =>
    intro d h
    cases hd : d.getLast? with
    | none =>
      rw [List.getLast?_eq_none_iff] at hd
      subst hd; simp at h
    | some c =>
      obtain ⟨cs, d', hrec⟩ := ih d.dropLast (by rw [List.length_dropLast]; omega)
      exact ⟨c :: cs, d', by simp [Deck.drawN, Deck.draw, hd, hrec]⟩

/-- One dealing round over `hands` succeeds whenever the deck holds at
least as many cards as there are hands, keeps the number of hands, and
consumes exactly one card per hand. -/
theorem dealRound_ok : ∀ (hands : List (List Card)) (d : List Card),
    hands.length ≤ d.length →
    ∃ hs d', Deck.dealRound d hands = (Except.ok hs, d') ∧
      hs.length = hands.length ∧ d'.length = d.length - hands.length := by
  intro hands
  induction hands with
  | nil => exact fun d _ => ⟨[], d, rfl, rfl, by simp⟩
  | cons h rest ih =>
    intro d hlen
    cases hd : d.getLast? with
    | none =>
      rw [List.getLast?_eq_none_iff] at hd
      subst hd; simp at hlen
    | some c =>
      obtain ⟨hs, d', hrec, hcount, hlen'⟩ :=
        ih d.dropLast (by rw [List.length_dropLast]; simp at hlen; omega)
      refine ⟨(h ++ [c]) :: hs, d', ?_, by simp [hcount], ?_⟩
      · simp [Deck.dealRound, Deck.draw, hd, hrec]
      · rw [hlen', List.length_dropLast]; simp; omega

/-- Repeated dealing rounds succeed whenever the deck holds enough cards
for all of them. -/
theorem dealRounds_ok : ∀ (r : Nat) (hands : List (List Card)) (d : List Card),
    hands.length * r ≤ d.length →
    ∃ hs d', Deck.dealRounds d hands r = (Except.ok hs, d') := by
  intro r
  induction r with
  | zero => exact fun hands d _ => ⟨hands, d, rfl⟩
  | succ r ih =>
    intro hands d hlen
    have hmul : hands.length * r + hands.length ≤ d.length := by
      rw [← Nat.mul_succ]; exact hlen
    obtain ⟨hs, d', hround, hcount, hlen'⟩ :=
      dealRound_ok hands d (by omega)
    obtain ⟨hs2, d2, hrec⟩ := ih hs d' (by rw [hlen', hcount]; omega)
    exact ⟨hs2, d2, by simp [Deck.dealRounds, hround, hrec]⟩

/-- C4: the bulk operations are atomic on every container: whenever
`extend` (Deck or Hand), `deal`, `draw_multiple` or `play_multiple` ends in
a raised exception, the container's contents afterwards are exactly what
they were before the call. -/
theorem C4_bulk_operations_atomic (d : List Card) (vals : List PyVal)
    (np cpp : Nat) (count : Int) :
    (∀ e, (Deck.extend d vals).1 = Except.error e → (Deck.extend d vals).2 = d) ∧
    (∀ e, (Hand.extend d vals).1 = Except.error e → (Hand.extend d vals).2 = d) ∧
    (∀ e, (Deck.deal d np cpp).1 = Except.error e → (Deck.deal d np cpp).2 = d) ∧
    (∀ e, (Deck.drawMultiple d count).1 = Except.error e →
      (Deck.drawMultiple d count).2 = d) ∧
    (∀ e, (Hand.playMultiple d count).1 = Except.error e →
      (Hand.playMultiple d count).2 = d) := by
  refine ⟨?_, ?_, ?_, ?_, ?_⟩
  · intro e he
    by_cases hv : (vals.all fun v =>
        match v with | PyVal.card _ => true | PyVal.other _ => false) = true
    · simp [Deck.extend, hv] at he
    · simp [Deck.extend, hv]
  · intro e he
    by_cases hv : (vals.all fun v =>
        match v with | PyVal.card _ => true | PyVal.other _ => false) = true
    · simp [Hand.extend, hv] at he
    · simp [Hand.extend, hv]
  · intro e he
    by_cases hlt : d.length < np * cpp
    · simp [Deck.deal, hlt]
    · obtain ⟨hs, d', hok⟩ := dealRounds_ok cpp (List.replicate np []) d
        (by simp only [List.length_replicate]; omega)
      simp [Deck.deal, hlt, hok] at he
  · intro e he
    by_cases hlt : (d.length : Int) < count
    · simp [Deck.drawMultiple, hlt]
    · obtain ⟨cs, d', hok⟩ := drawN_ok count.toNat d (by omega)
      simp [Deck.drawMultiple, hlt, hok] at he
  · intro e he
    unfold Hand.playMultiple
    split
    · rfl
    · split <;> rfl

/-- Witness for C4: `deal(10, 10)` on the 52-card standard deck fails and
leaves all 52 cards in place, and extending an empty deck with a non-Card
element fails leaving it empty. -/
theorem C4_bulk_operations_atomic_witness :
    (Deck.deal standardCards 10 10).2 = standardCards ∧
    (Deck.extend [] [PyVal.other "x"]).2 = [] :=
  ⟨(C4_bulk_operations_atomic standardCards [] 10 10 0).2.2.1
      PyErr.valueError (by decide),
   (C4_bulk_operations_atomic [] [PyVal.other "x"] 0 0 0).1
      PyErr.typeError (by decide)⟩

/-- Mutating one card object in place leaves every other object
unchanged. -/
theorem readCard_flipAt_ne (heap : Heap) {i j : Nat} (h : i ≠ j) :
    readCard (flipAt heap i) j = readCard heap j := by
  unfold readCard flipAt
  rw [List.getD_eq_getElem?_getD, List.getD_eq_getElem?_getD,
      List.getElem?_set_ne h]

/-- The object ids of the triple standard deck are 52, 53, ..., 207 in
order — in particular pairwise distinct. -/
theorem deckInitH3_ids_getD : ∀ p, p < 156 → (deckInitH 3).1.getD p 0 = p + 52 := by
  decide

/-- C5: a standard-initialized single deck has exactly 52 cards, one of
each (rank, suit) pair; with deck_count = 3 it has exactly 156 cards,
three of each pair, and flipping the face-up flag of any one card object
leaves every other card object of the deck — in particular the other two
copies of the same pair — unchanged. -/
theorem C5_standard_init_counts_and_copy_independence :
    (deckInitH 1).1.length = 52 ∧
    (∀ r : Rank, ∀ s : Suit,
      Deck.count (readCards (deckInitH 1).2 (deckInitH 1).1) (cardNew r s) = 1) ∧
    (deckInitH 3).1.length = 156 ∧
    (∀ r : Rank, ∀ s : Suit,
      Deck.count (readCards (deckInitH 3).2 (deckInitH 3).1) (cardNew r s) = 3) ∧
    (∀ p q : Nat, p < 156 → q < 156 → p ≠ q →
      readCard (flipAt (deckInitH 3).2 ((deckInitH 3).1.getD p 0))
          ((deckInitH 3).1.getD q 0) =
        readCard (deckInitH 3).2 ((deckInitH 3).1.getD q 0)) := by
  refine ⟨by decide, by decide, by decide, by decide, ?_⟩
  intro p q hp hq hne
  apply readCard_flipAt_ne
  rw [deckInitH3_ids_getD p hp, deckInitH3_ids_getD q hq]
  omega

/-- Witness for C5: flipping the first copy of TWO of HEARTS in the triple
deck leaves the second copy face down. -/
theorem C5_standard_init_witness :
    readCard (flipAt (deckInitH 3).2 ((deckInitH 3).1.getD 0 0))
        ((deckInitH 3).1.getD 1 0) =
      readCard (deckInitH 3).2 ((deckInitH 3).1.getD 1 0) :=
  C5_standard_init_counts_and_copy_independence.2.2.2.2 0 1
    (by decide) (by decide) (by decide)

/-- Duplicating each element of a list k times yields a list k times as
long. -/
theorem length_flatMap_replicate (l : List Card) (k : Nat) :
    (l.flatMap (fun c => List.replicate k c)).length = l.length * k := by
  induction l with
  | nil => simp
  | cons x xs ih => simp only [List.flatMap_cons, List.length_append,
      List.length_replicate, ih, List.length_cons, Nat.succ_mul]; omega

/-- Reading every position of a list in order gives the list back. -/
theorem map_getD_range (l : List Card) (d : Card) :
    (List.range l.length).map (fun k => l.getD k d) = l := by
  induction l with
  | nil => simp
  | cons x xs ih =>
    rw [List.length_cons, List.range_succ_eq_map, List.map_cons, List.map_map]
    simp only [Function.comp_def, List.getD_cons_zero, List.getD_cons_succ]
    rw [ih]

/-- Freshly appended objects read back as themselves through their new
ids. -/
theorem readCards_append_fresh (heap copies : Heap) :
    readCards (heap ++ copies)
      ((List.range copies.length).map (· + heap.length)) = copies := by
  unfold readCards
  rw [List.map_map]
  have h1 : ∀ k ∈ List.range copies.length,
      (readCard (heap ++ copies) ∘ (· + heap.length)) k =
        copies.getD k (cardNew Rank.TWO Suit.HEARTS) := by
    intro k hk
    rw [List.mem_range] at hk
    simp only [Function.comp_def]
    unfold readCard
    rw [List.getD_eq_getElem?_getD, List.getD_eq_getElem?_getD,
        List.getElem?_append_right (by omega)]
    congr 2
    omega
  rw [List.map_congr_left h1, map_getD_range]

/-- Appending fresh objects to the heap does not change how existing ids
read. -/
theorem readCards_append_left (heap copies : Heap) (ids : List Nat)
    (hwf : ∀ i ∈ ids, i < heap.length) :
    readCards (heap ++ copies) ids = readCards heap ids := by
  unfold readCards
  apply List.map_congr_left
  intro i hi
  unfold readCard
  rw [List.getD_eq_getElem?_getD, List.getD_eq_getElem?_getD,
      List.getElem?_append_left (hwf i hi)]

/-- Flipping an object none of the given ids refer to does not change how
they read. -/
theorem readCards_flipAt_notMem (heap : Heap) (ids : List Nat) (j : Nat)
    (h : ∀ i ∈ ids, i ≠ j) :
    readCards (flipAt heap j) ids = readCards heap ids := by
  unfold readCards
  apply List.map_congr_left
  intro i hi
  exact readCard_flipAt_ne heap (fun hji => (h i hi) hji.symm)

/-- C7 counterexample: for n = 1 the product is not made of deep-independent
copies.  `deck * 1` on a one-card deck returns a new container over the
very same card object (same object id); flipping that card through the
product changes the original deck's view of its card. -/
theorem C7_mul_one_counterexample :
    Deck.mulH [cardNew Rank.TWO Suit.HEARTS] [0] 1 =
      (Except.ok [0], [cardNew Rank.TWO Suit.HEARTS]) ∧
    readCards (flipAt [cardNew Rank.TWO Suit.HEARTS] 0) [0] ≠
      readCards [cardNew Rank.TWO Suit.HEARTS] [0] := by
  decide

/-- C7 (amended): for every container whose ids are valid heap references,
`container * n` never mutates the original; `n < 0` fails with
`ValueError` (the spec's `InvalidArgument`) leaving everything unchanged;
`n = 0` yields an empty product; the product has `n * len` cards for every
`n ≥ 0`; for `n = 1` the product holds the *same* card objects as the
original (mutations are shared); and for `n ≥ 2` the product consists of
`n` adjacent deep-independent copies of each card — its values are each
original card value repeated `n` times, the original reads unchanged, and
flipping any card of the product leaves every card of the original
exactly as it was. -/
theorem C7_mul_deep_copy_semantics (heap : Heap) (ids : List Nat) (n : Int)
    (hwf : ∀ i ∈ ids, i < heap.length) :
    (n < 0 → Deck.mulH heap ids n = (Except.error PyErr.valueError, heap)) ∧
    (n = 0 → Deck.mulH heap ids n = (Except.ok [], heap)) ∧
    (n = 1 → Deck.mulH heap ids n = (Except.ok ids, heap)) ∧
    (∀ ids2, 0 ≤ n → (Deck.mulH heap ids n).1 = Except.ok ids2 →
      ids2.length = n.toNat * ids.length) ∧
    (2 ≤ n → ∀ ids2, (Deck.mulH heap ids n).1 = Except.ok ids2 →
      readCards (Deck.mulH heap ids n).2 ids2 =
        (readCards heap ids).flatMap (fun c => List.replicate n.toNat c) ∧
      readCards (Deck.mulH heap ids n).2 ids = readCards heap ids ∧
      (∀ j ∈ ids2, readCards (flipAt (Deck.mulH heap ids n).2 j) ids =
        readCards heap ids)) := by
  refine ⟨?_, ?_, ?_, ?_, ?_⟩
  · intro hneg
    unfold Deck.mulH
    rw [if_pos hneg]
  · intro h0; subst h0; rfl
  · intro h1; subst h1; rfl
  · intro ids2 hn hok
    by_cases h0 : n = 0
    · subst h0
      simp only [Deck.mulH] at hok
      norm_num at hok
      simp [← hok]
    · by_cases h1 : n = 1
      · subst h1
        simp only [Deck.mulH] at hok
        norm_num at hok
        simp [← hok]
      · have h2 : ¬ n < 0 := by omega
        simp only [Deck.mulH, if_neg h2, if_neg h0, if_neg h1] at hok
        rw [← (Except.ok.injEq _ _).mp hok]
        rw [List.length_map, List.length_range, length_flatMap_replicate]
        unfold readCards
        rw [List.length_map, Nat.mul_comm]
  · intro h2n ids2 hok
    have hneg : ¬ n < 0 := by omega
    have h0 : ¬ n = 0 := by omega
    have h1 : ¬ n = 1 := by omega
    simp only [Deck.mulH, if_neg hneg, if_neg h0, if_neg h1] at hok ⊢
    have hids2 : ids2 =
        (List.range ((readCards heap ids).flatMap
          (fun c => List.replicate n.toNat c)).length).map (· + heap.length) :=
      ((Except.ok.injEq _ _).mp hok).symm
    subst hids2
    refine ⟨readCards_append_fresh heap _, readCards_append_left heap _ ids hwf, ?_⟩
    intro j hj
    obtain ⟨k, _, hk⟩ := List.mem_map.mp hj
    have hjge : heap.length ≤ j := by omega
    rw [readCards_flipAt_notMem _ ids j (fun i hi => by have := hwf i hi; omega),
        readCards_append_left heap _ ids hwf]

/-- Witness for C7: multiplying a one-card deck by -1 fails with
`ValueError` and changes nothing. -/
theorem C7_mul_deep_copy_semantics_witness :
    Deck.mulH [cardNew Rank.ACE Suit.SPADES] [0] (-1) =
      (Except.error PyErr.valueError, [cardNew Rank.ACE Suit.SPADES]) :=
  (C7_mul_deep_copy_semantics [cardNew Rank.ACE Suit.SPADES] [0] (-1)
    (by decide)).1 (by decide)

end Cardpy
